import Mathlib

/-!
Verification of the preevy tunnel-server gateway (src/tunnel-server/src/app.ts):
the hostname classifier, the request/upgrade dispatcher, the tunnel-discovery
endpoint and the login flow are shallowly embedded as pure Lean functions.
External collaborators (tunnel registry, session store, authenticator, proxy)
are passed in as explicit arguments describing the answers they would give,
and each handler additionally returns the trace of collaborator events it
performs, in program order, so that claims about side effects ("no
authenticator is constructed", "the save is not awaited") can be stated.
-/

namespace TunnelServer

/-- Identity claims produced by an authenticator; opaque to this core beyond
being storable in a session, so modelled as a string. -/
abbrev Claims := String

/-- Verdict of one authenticator invocation: `isAuthenticated` plus the
claims (meaningful only when authenticated), as in src/tunnel-server/src/auth
results consumed by app.ts. -/
structure AuthResult where
  isAuthenticated : Bool
  claims : Claims
deriving DecidableEq, Repr

/-- One live tenant tunnel, as read from the tunnel registry
(`ActiveTunnelStore`).  `access`, `meta` and `publicKey` are opaque to the
gateway core and modelled as strings. -/
structure ActiveTunnel where
  envId : String
  hostname : String
  publicKey : String
  publicKeyThumbprint : String
  access : String
  meta : String
deriving DecidableEq, Repr

/-- ASCII lower-casing of one character, modelling JS `toLowerCase` on the
ASCII range (enough to speak about hostnames differing only in letter case). -/
def charToLower (c : Char) : Char :=
  if 65 ≤ c.toNat && c.toNat ≤ 90 then Char.ofNat (c.toNat + 32) else c

/-- ASCII lower-casing of a string. -/
def strToLower (s : String) : String := String.mk (s.data.map charToLower)

/-- Models JS `String.prototype.startsWith` (also Lean's `String.startsWith`),
written over the character list so that it evaluates by kernel reduction. -/
def strStartsWith (s p : String) : Bool := List.isPrefixOf p.data s.data

/-- The part of a Host header before the first colon: the JS expression
`host.split(':')[0]` used by `isNonProxyRequest` (app.ts line 43), i.e. the
host with any port suffix stripped. -/
def hostBeforePort (h : String) : String :=
  String.mk (h.data.takeWhile (fun c => !(c == ':')))

/-- Embeds `isNonProxyRequest` (app.ts lines 42-45).  The Host header is an
`Option String` (`none` = header absent; in JS the optional chain then yields
`undefined`, which compares unequal to both control-plane hostnames).  The
function is total by construction: it never throws, whatever the header. -/
def isNonProxyRequest (baseHostname : String) (host : Option String) : Bool :=
  match host with
  | none => false
  | some h =>
    (hostBeforePort h == "auth." ++ baseHostname) ||
    (hostBeforePort h == "api." ++ baseHostname)

/-- A URL broken into the components this core manipulates: scheme, hostname,
path, and the query string (already rendered, with its leading question mark,
or empty).  Ports, userinfo and fragments play no role in the claims. -/
structure Url where
  scheme : String
  host : String
  path : String
  queryString : String
deriving DecidableEq, Repr

/-- Serialisation of a `Url`, as JS `URL.prototype.toString` produces for the
components modelled here. -/
def urlToString (u : Url) : String :=
  u.scheme ++ "://" ++ u.host ++ u.path ++ u.queryString

/-- Hex digit (upper case) of a value below 16, for percent-encoding. -/
def hexDigitChar (n : Nat) : Char :=
  if n < 10 then Char.ofNat (48 + n) else Char.ofNat (55 + n)

/-- UTF-8 encoding of one character, as the byte values. -/
def utf8Bytes (c : Char) : List Nat :=
  let n := c.toNat
  if n < 0x80 then [n]
  else if n < 0x800 then [0xC0 + n / 0x40, 0x80 + n % 0x40]
  else if n < 0x10000 then
    [0xE0 + n / 0x1000, 0x80 + n / 0x40 % 0x40, 0x80 + n % 0x40]
  else
    [0xF0 + n / 0x40000, 0x80 + n / 0x1000 % 0x40, 0x80 + n / 0x40 % 0x40,
     0x80 + n % 0x40]

/-- Percent-encoding of one byte: a percent sign and two upper-case hex
digits. -/
def percentEncodeByte (b : Nat) : String :=
  String.mk ['%', hexDigitChar (b / 16 % 16), hexDigitChar (b % 16)]

/-- The characters JS `encodeURIComponent` leaves unescaped: ASCII letters,
digits, and - _ . ! ~ * ( ) and the single quote. -/
def isUriUnreserved (c : Char) : Bool :=
  c.isAlpha || c.isDigit || c == '-' || c == '_' || c == '.' || c == '!' ||
    c == '~' || c == '*' || c == '(' || c == ')' || c == Char.ofNat 39

/-- Models JS `encodeURIComponent`: unreserved characters are kept, every
other character is replaced by the percent-encoding of its UTF-8 bytes. -/
def encodeURIComponent (s : String) : String :=
  String.join (s.data.map (fun c =>
    if isUriUnreserved c then String.singleton c
    else String.join ((utf8Bytes c).map percentEncodeByte)))

/-- Rendering of query parameters as k=v pairs joined by ampersands, each key
and value URL-encoded. -/
def renderQueryParams : List (String × String) → String
  | [] => ""
  | [p] => encodeURIComponent p.1 ++ "=" ++ encodeURIComponent p.2
  | p :: q :: r =>
    encodeURIComponent p.1 ++ "=" ++ encodeURIComponent p.2 ++ "&" ++
      renderQueryParams (q :: r)

/-- Modelled from the spec: the URL helper `editUrl`
(src/tunnel-server/src/url.ts, whose source is not included under src/)
rebuilds a URL with the given replacements — hostname, path, and query
parameters — keeping every component that is not replaced.  Each argument is
`none` when the corresponding field of the edit object is absent at the call
site in app.ts. -/
def editUrl (u : Url) (hostname : Option String) (path : Option String)
    (queryParams : Option (List (String × String))) : Url :=
  { scheme := u.scheme
    host := hostname.getD u.host
    path := path.getD u.path
    queryString :=
      match queryParams with
      | none => u.queryString
      | some [] => ""
      | some ps => "?" ++ renderQueryParams ps }

/-- Embeds `buildLoginUrl` (app.ts lines 12-23): the base URL rebuilt with
hostname auth.<base>, path /login, and query parameters env plus — when
`returnPath` is truthy in JS, i.e. present and non-empty — returnPath. -/
def buildLoginUrl (baseUrl : Url) (env : String) (returnPath : Option String) :
    String :=
  urlToString (editUrl baseUrl (some ("auth." ++ baseUrl.host)) (some "/login")
    (some (("env", env) ::
      (match returnPath with
       | some rp => if rp == "" then [] else [("returnPath", rp)]
       | none => []))))

/-- Modelled after the WHATWG URL resolution `new URL(rel, base)` performed at
app.ts line 138, for references against a special-scheme base: backslashes
behave like forward slashes; a reference starting with two slashes is
protocol-relative, so its own authority (up to the next slash, question mark
or hash) replaces the base host; a reference starting with one slash is a
path-absolute reference and keeps the base host; any other reference keeps the
base host and is merged onto the base path (the login handler only ever
resolves references starting with a slash, so the last case is inert). -/
def resolve (rel : String) (base : Url) : Url :=
  let chars := rel.data.map (fun c => if c == '\\' then '/' else c)
  match chars with
  | '/' :: '/' :: rest =>
    let hostChars := rest.takeWhile (fun c => !(c == '/' || c == '?' || c == '#'))
    let tail := rest.drop hostChars.length
    let pathChars := tail.takeWhile (fun c => !(c == '?'))
    { scheme := base.scheme
      host := String.mk hostChars
      path := if pathChars.isEmpty then "/" else String.mk pathChars
      queryString := String.mk (tail.drop pathChars.length) }
  | '/' :: _ =>
    let pathChars := chars.takeWhile (fun c => !(c == '?'))
    { scheme := base.scheme
      host := base.host
      path := String.mk pathChars
      queryString := String.mk (chars.drop pathChars.length) }
  | _ =>
    { scheme := base.scheme
      host := base.host
      path := String.mk
        ((base.path.data.reverse.dropWhile (fun c => !(c == '/'))).reverse ++ chars)
      queryString := "" }

/-- HTTP outcome of the login handler.  `jsonError s e` is a response with
status code `s` and JSON body consisting of an error field holding `e`;
`redirect t o` is Fastify's redirect (status 302) to target `t`, carrying an
Access-Control-Allow-Origin header of `o` when present. -/
inductive LoginResponse where
  | jsonError (status : Nat) (error : String)
  | redirect (target : String) (corsOrigin : Option String)
deriving DecidableEq, Repr

/-- Collaborator events of one run of the login handler, in program order.
`startSave aw` records the call `session.save()`; the flag is true when the
handler awaits the returned promise before continuing (at app.ts line 136 the
call is not awaited, so the handler records `startSave false`). -/
inductive Ev where
  | lookupTunnel (envId : String)
  | openSession (thumbprint : String)
  | buildAuth (thumbprint : String)
  | invokeAuth
  | sessionSet (claims : Claims)
  | startSave (awaited : Bool)
  | respond (r : LoginResponse)
deriving DecidableEq, Repr

/-- Shallow embedding of the GET /login handler (app.ts lines 100-139).
Collaborators appear as arguments describing the answers they would give:
`registry` is `activeTunnelStore.get` (the `value` of the returned entry),
`sessionUser` is the `user` field of the session the session store yields for
this request and the tunnel's thumbprint, and `auth` is the verdict the
authenticator built from the tunnel would return.  The first component is the
HTTP outcome, the second the trace of collaborator events in program order. -/
def loginHandler (baseUrl : Url) (saasBaseUrl : Option String)
    (registry : String → Option ActiveTunnel) (sessionUser : Option Claims)
    (auth : AuthResult) (envId : String) (returnPathQ : Option String) :
    LoginResponse × List Ev :=
  let returnPath := returnPathQ.getD "/"
  if !strStartsWith returnPath "/" then
    let r := LoginResponse.jsonError 400 "returnPath must be a relative path"
    (r, [Ev.respond r])
  else
    match registry envId with
    | none =>
      let r := LoginResponse.jsonError 404 "unknown envId"
      (r, [Ev.lookupTunnel envId, Ev.respond r])
    | some activeTunnel =>
      let tenantTarget := urlToString (resolve returnPath
        (editUrl baseUrl (some (envId ++ "." ++ baseUrl.host)) none none))
      match sessionUser with
      | some _ =>
        let r := LoginResponse.redirect tenantTarget none
        (r, [Ev.lookupTunnel envId, Ev.openSession activeTunnel.publicKeyThumbprint,
             Ev.respond r])
      | none =>
        if !auth.isAuthenticated then
          match saasBaseUrl with
          | some saas =>
            let r := LoginResponse.redirect
              (saas ++ "/api/auth/login?redirectTo=" ++
                encodeURIComponent (buildLoginUrl baseUrl envId (some returnPath)))
              (some saas)
            (r, [Ev.lookupTunnel envId,
                 Ev.openSession activeTunnel.publicKeyThumbprint,
                 Ev.buildAuth activeTunnel.publicKeyThumbprint, Ev.invokeAuth,
                 Ev.respond r])
          | none =>
            let r := LoginResponse.jsonError 401 "Unauthorized"
            (r, [Ev.lookupTunnel envId,
                 Ev.openSession activeTunnel.publicKeyThumbprint,
                 Ev.buildAuth activeTunnel.publicKeyThumbprint, Ev.invokeAuth,
                 Ev.respond r])
        else
          let r := LoginResponse.redirect tenantTarget none
          (r, [Ev.lookupTunnel envId,
               Ev.openSession activeTunnel.publicKeyThumbprint,
               Ev.buildAuth activeTunnel.publicKeyThumbprint, Ev.invokeAuth,
               Ev.sessionSet auth.claims, Ev.startSave false, Ev.respond r])

/-- Recognises the registry-lookup event. -/
def isLookupEv : Ev → Bool
  | Ev.lookupTunnel _ => true
  | _ => false

/-- Recognises the session-open event. -/
def isOpenSessionEv : Ev → Bool
  | Ev.openSession _ => true
  | _ => false

/-- Recognises the authenticator-construction event. -/
def isBuildAuthEv : Ev → Bool
  | Ev.buildAuth _ => true
  | _ => false

/-- Recognises a session write (staging claims or starting a save). -/
def isSessionWriteEv : Ev → Bool
  | Ev.sessionSet _ => true
  | Ev.startSave _ => true
  | _ => false

/-- Recognises the start of a session save. -/
def isStartSaveEv : Ev → Bool
  | Ev.startSave _ => true
  | _ => false

/-- Recognises the response event. -/
def isRespondEv : Ev → Bool
  | Ev.respond _ => true
  | _ => false

/-- Position of the response in a trace. -/
def respondIdx (tr : List Ev) : Nat := tr.findIdx isRespondEv

/-- Scheduling model for the asynchronous save: an operation started at trace
position i may be observed complete at any position c with i ≤ c (including
positions past the end of the trace, i.e. after the response); when the
handler awaits it, control resumes only on completion, so c = i. -/
def validSaveCompletion (tr : List Ev) (i c : Nat) : Prop :=
  i ≤ c ∧ (tr.get? i = some (Ev.startSave true) → c = i)

/-- The persistence-ordering property claimed of a trace: every session save
started in it completes before the response is issued, under every completion
time the scheduling model allows. -/
def saveResolvesBeforeRespond (tr : List Ev) : Prop :=
  ∀ i c, (tr.get? i).any isStartSaveEv = true → validSaveCompletion tr i c →
    c < respondIdx tr

/-- Outcome of the upgrade dispatcher for one upgrade request: either the
proxy's upgrade handler is invoked, or the raw socket is ended —
`socket.end payload`, a terminal write of the payload followed by closing the
socket, with no HTTP status line or response pipeline involved. -/
inductive UpgradeOutcome where
  | proxied
  | socketEnded (payload : String)
deriving DecidableEq, Repr

/-- Embeds the upgrade listener (app.ts lines 54-64).  `proxyClaims` tells
whether `proxy.routeUpgrade` would return a handler for this request; the
second component of the result records whether `proxy.routeUpgrade` was
actually invoked (the JS conjunction short-circuits on a control-plane
host). -/
def handleUpgrade (baseHostname : String) (host : Option String)
    (proxyClaims : Bool) : UpgradeOutcome × Bool :=
  if isNonProxyRequest baseHostname host then
    (UpgradeOutcome.socketEnded "Not found", false)
  else if proxyClaims then
    (UpgradeOutcome.proxied, true)
  else
    (UpgradeOutcome.socketEnded "Not found", true)

/-- The public projection of a tunnel returned by the discovery endpoint
(app.ts lines 90-95): key material is never echoed back. -/
structure TunnelProjection where
  envId : String
  hostname : String
  access : String
  meta : String
deriving DecidableEq, Repr

/-- Projection of one tunnel record. -/
def tunnelProjection (t : ActiveTunnel) : TunnelProjection :=
  { envId := t.envId, hostname := t.hostname, access := t.access, meta := t.meta }

/-- HTTP outcome of the tunnel-discovery handler: success (status 200) with
the listed body, or status 401 with the plain body Unauthenticated. -/
inductive TunnelsResponse where
  | ok (body : List TunnelProjection)
  | unauthenticated
deriving DecidableEq, Repr

/-- Collaborator events of one run of the discovery handler. -/
inductive TunnelsEv where
  | storeLookup (profileId : String)
  | buildAuth (thumbprint : String)
  | invokeAuth
  | respond (r : TunnelsResponse)
deriving DecidableEq, Repr

/-- Recognises the authenticator-construction event of the discovery
handler. -/
def isTunnelsBuildAuthEv : TunnelsEv → Bool
  | TunnelsEv.buildAuth _ => true
  | _ => false

/-- Shallow embedding of GET /profiles/:profileId/tunnels (app.ts lines
70-96).  `store` is `activeTunnelStore.getByPkThumbprint` (an absent result
and an empty list are both the empty list, matching the JS falsy-length
check), `auth` the verdict the authenticator built from the first tunnel
would return. -/
def tunnelsHandler (store : String → List ActiveTunnel) (auth : AuthResult)
    (profileId : String) : TunnelsResponse × List TunnelsEv :=
  match store profileId with
  | [] =>
    (TunnelsResponse.ok [],
     [TunnelsEv.storeLookup profileId, TunnelsEv.respond (TunnelsResponse.ok [])])
  | t :: rest =>
    if !auth.isAuthenticated then
      (TunnelsResponse.unauthenticated,
       [TunnelsEv.storeLookup profileId, TunnelsEv.buildAuth t.publicKeyThumbprint,
        TunnelsEv.invokeAuth, TunnelsEv.respond TunnelsResponse.unauthenticated])
    else
      let body := (t :: rest).map tunnelProjection
      (TunnelsResponse.ok body,
       [TunnelsEv.storeLookup profileId, TunnelsEv.buildAuth t.publicKeyThumbprint,
        TunnelsEv.invokeAuth, TunnelsEv.respond (TunnelsResponse.ok body)])

/-- Concrete base URL used by witnesses: the gateway at
https://livecycle.example with empty path and query. -/
def exBase : Url :=
  { scheme := "https", host := "livecycle.example", path := "", queryString := "" }

/-- Concrete tunnel record used by witnesses. -/
def exTunnel : ActiveTunnel :=
  { envId := "myenv", hostname := "myenv.livecycle.example", publicKey := "PK"
    publicKeyThumbprint := "TP1", access := "public", meta := "m" }

/-- Concrete registry used by witnesses: exactly the environment myenv is
active. -/
def exRegistry : String → Option ActiveTunnel :=
  fun e => if e == "myenv" then some exTunnel else none

/-- Concrete authenticated verdict used by witnesses. -/
def exAuthOk : AuthResult := { isAuthenticated := true, claims := "alice" }

/-- Concrete unauthenticated verdict used by witnesses. -/
def exAuthNo : AuthResult := { isAuthenticated := false, claims := "" }

end TunnelServer

namespace TunnelServer

/-- C3: the classifier says control-plane iff the Host header is present and,
with any port suffix stripped, equals exactly "auth."++base or "api."++base;
every other value (missing header included) classifies as tunnel traffic, and
the classification is a total function (never throws). -/
theorem isNonProxyRequest_control_plane_iff (base : String) (host : Option String) :
    isNonProxyRequest base host = true ↔
      ∃ h, host = some h ∧
        (hostBeforePort h = "auth." ++ base ∨ hostBeforePort h = "api." ++ base) := by
  cases host with
  | none => simp [isNonProxyRequest]
  | some h => simp [isNonProxyRequest]

/-- C10: the classification is a case-sensitive exact comparison: a Host
header that agrees with a control-plane hostname up to ASCII letter case but
is not exactly equal to either classifies as tunnel traffic. -/
theorem isNonProxyRequest_case_sensitive (base h : String)
    (hcase : strToLower (hostBeforePort h) = strToLower ("auth." ++ base) ∨
      strToLower (hostBeforePort h) = strToLower ("api." ++ base))
    (hne1 : hostBeforePort h ≠ "auth." ++ base)
    (hne2 : hostBeforePort h ≠ "api." ++ base) :
    isNonProxyRequest base (some h) = false := by
  simp [isNonProxyRequest, hne1, hne2]

/-- Witness for C10 at a concrete input: AUTH.example.com differs from
auth.example.com only in case and is classified as tunnel traffic. -/
theorem isNonProxyRequest_case_sensitive_witness :
    isNonProxyRequest "example.com" (some "AUTH.example.com") = false :=
  isNonProxyRequest_case_sensitive "example.com" "AUTH.example.com"
    (Or.inl (by decide)) (by decide) (by decide)

/-- C9: a login request whose returnPath does not start with a slash gets the
400 response with the error body, whatever the registry, session and
authenticator would answer, and its trace contains no registry lookup: the
validation precedes any lookup. -/
theorem login_invalid_returnPath_400_before_lookup
    (baseUrl : Url) (saasBaseUrl : Option String)
    (registry : String → Option ActiveTunnel) (sessionUser : Option Claims)
    (auth : AuthResult) (envId rp : String)
    (hrp : strStartsWith rp "/" = false) :
    loginHandler baseUrl saasBaseUrl registry sessionUser auth envId (some rp) =
      (LoginResponse.jsonError 400 "returnPath must be a relative path",
       [Ev.respond (LoginResponse.jsonError 400 "returnPath must be a relative path")]) ∧
    ∀ e ∈ (loginHandler baseUrl saasBaseUrl registry sessionUser auth envId (some rp)).2,
      isLookupEv e = false := by
  have h : loginHandler baseUrl saasBaseUrl registry sessionUser auth envId (some rp) =
      (LoginResponse.jsonError 400 "returnPath must be a relative path",
       [Ev.respond (LoginResponse.jsonError 400 "returnPath must be a relative path")]) := by
    simp [loginHandler, hrp]
  refine ⟨h, ?_⟩
  rw [h]
  intro e he
  simp only [List.mem_singleton] at he
  rw [he]
  rfl

/-- Witness for C9 at a concrete input: returnPath "x" yields the 400
response with no registry lookup, although the env is active. -/
theorem login_invalid_returnPath_400_before_lookup_witness :
    loginHandler exBase none exRegistry none exAuthOk "myenv" (some "x") =
      (LoginResponse.jsonError 400 "returnPath must be a relative path",
       [Ev.respond (LoginResponse.jsonError 400 "returnPath must be a relative path")]) ∧
    ∀ e ∈ (loginHandler exBase none exRegistry none exAuthOk "myenv" (some "x")).2,
      isLookupEv e = false :=
  login_invalid_returnPath_400_before_lookup exBase none exRegistry none exAuthOk
    "myenv" "x" rfl

/-- C6: when the returnPath validation passes and the registry has no active
tunnel for env, the response is 404 with the unknown-envId error body, and the
trace contains no authenticator construction and no session opening. -/
theorem login_unknown_env_404_no_side_effects
    (baseUrl : Url) (saasBaseUrl : Option String)
    (registry : String → Option ActiveTunnel) (sessionUser : Option Claims)
    (auth : AuthResult) (envId : String) (returnPathQ : Option String)
    (hrp : strStartsWith (returnPathQ.getD "/") "/" = true)
    (hreg : registry envId = none) :
    (loginHandler baseUrl saasBaseUrl registry sessionUser auth envId returnPathQ).1 =
      LoginResponse.jsonError 404 "unknown envId" ∧
    ∀ e ∈ (loginHandler baseUrl saasBaseUrl registry sessionUser auth envId returnPathQ).2,
      isBuildAuthEv e = false ∧ isOpenSessionEv e = false := by
  have h : loginHandler baseUrl saasBaseUrl registry sessionUser auth envId returnPathQ =
      (LoginResponse.jsonError 404 "unknown envId",
       [Ev.lookupTunnel envId,
        Ev.respond (LoginResponse.jsonError 404 "unknown envId")]) := by
    simp [loginHandler, hrp, hreg]
  refine ⟨by rw [h], ?_⟩
  rw [h]
  intro e he
  simp only [List.mem_cons, List.mem_singleton, List.not_mem_nil, or_false] at he
  rcases he with he | he <;> rw [he] <;> exact ⟨rfl, rfl⟩

/-- Witness for C6 at a concrete input: env "ghost" is not in the registry
and the request with defaulted returnPath gets a 404 with no authenticator
and no session. -/
theorem login_unknown_env_404_no_side_effects_witness :
    (loginHandler exBase none exRegistry none exAuthOk "ghost" none).1 =
      LoginResponse.jsonError 404 "unknown envId" ∧
    ∀ e ∈ (loginHandler exBase none exRegistry none exAuthOk "ghost" none).2,
      isBuildAuthEv e = false ∧ isOpenSessionEv e = false :=
  login_unknown_env_404_no_side_effects exBase none exRegistry none exAuthOk
    "ghost" none rfl rfl

/-- C7: when the session already carries claims, the login handler responds
with the redirect to returnPath resolved against env.<base> and its trace
contains no authenticator construction and no session write. -/
theorem login_existing_session_skips_auth_and_redirects
    (baseUrl : Url) (saasBaseUrl : Option String)
    (registry : String → Option ActiveTunnel) (u : Claims)
    (auth : AuthResult) (envId : String) (returnPathQ : Option String)
    (t : ActiveTunnel)
    (hrp : strStartsWith (returnPathQ.getD "/") "/" = true)
    (hreg : registry envId = some t) :
    (loginHandler baseUrl saasBaseUrl registry (some u) auth envId returnPathQ).1 =
      LoginResponse.redirect
        (urlToString (resolve (returnPathQ.getD "/")
          (editUrl baseUrl (some (envId ++ "." ++ baseUrl.host)) none none))) none ∧
    ∀ e ∈ (loginHandler baseUrl saasBaseUrl registry (some u) auth envId returnPathQ).2,
      isBuildAuthEv e = false ∧ isSessionWriteEv e = false := by
  have h : loginHandler baseUrl saasBaseUrl registry (some u) auth envId returnPathQ =
      (LoginResponse.redirect
        (urlToString (resolve (returnPathQ.getD "/")
          (editUrl baseUrl (some (envId ++ "." ++ baseUrl.host)) none none))) none,
       [Ev.lookupTunnel envId, Ev.openSession t.publicKeyThumbprint,
        Ev.respond (LoginResponse.redirect
          (urlToString (resolve (returnPathQ.getD "/")
            (editUrl baseUrl (some (envId ++ "." ++ baseUrl.host)) none none))) none)]) := by
    simp [loginHandler, hrp, hreg]
  refine ⟨by rw [h], ?_⟩
  rw [h]
  intro e he
  simp only [List.mem_cons, List.mem_singleton, List.not_mem_nil, or_false] at he
  rcases he with he | he | he <;> rw [he] <;> exact ⟨rfl, rfl⟩

/-- Witness for C7 at a concrete input: a session already holding claims for
the active env "myenv" is redirected to https://myenv.livecycle.example/app
with no authentication and no session write. -/
theorem login_existing_session_skips_auth_and_redirects_witness :
    (loginHandler exBase none exRegistry (some "alice") exAuthNo "myenv" (some "/app")).1 =
      LoginResponse.redirect
        (urlToString (resolve ((some "/app").getD "/")
          (editUrl exBase (some ("myenv" ++ "." ++ exBase.host)) none none))) none ∧
    ∀ e ∈ (loginHandler exBase none exRegistry (some "alice") exAuthNo "myenv" (some "/app")).2,
      isBuildAuthEv e = false ∧ isSessionWriteEv e = false :=
  login_existing_session_skips_auth_and_redirects exBase none exRegistry "alice"
    exAuthNo "myenv" (some "/app") exTunnel rfl rfl

/-- C8: when the registry holds no tunnel for the thumbprint, the discovery
handler responds success with the empty list and its trace contains no
authenticator construction. -/
theorem tunnels_empty_list_no_auth
    (store : String → List ActiveTunnel) (auth : AuthResult) (profileId : String)
    (h : store profileId = []) :
    (tunnelsHandler store auth profileId).1 = TunnelsResponse.ok [] ∧
    ∀ e ∈ (tunnelsHandler store auth profileId).2, isTunnelsBuildAuthEv e = false := by
  have heq : tunnelsHandler store auth profileId =
      (TunnelsResponse.ok [],
       [TunnelsEv.storeLookup profileId,
        TunnelsEv.respond (TunnelsResponse.ok [])]) := by
    simp [tunnelsHandler, h]
  refine ⟨by rw [heq], ?_⟩
  rw [heq]
  intro e he
  simp only [List.mem_cons, List.mem_singleton, List.not_mem_nil, or_false] at he
  rcases he with he | he <;> rw [he] <;> rfl

/-- Witness for C8 at a concrete input: a registry with no tunnels at all
yields the empty list and no authenticator. -/
theorem tunnels_empty_list_no_auth_witness :
    (tunnelsHandler (fun _ => []) exAuthNo "TP9").1 = TunnelsResponse.ok [] ∧
    ∀ e ∈ (tunnelsHandler (fun _ => []) exAuthNo "TP9").2,
      isTunnelsBuildAuthEv e = false :=
  tunnels_empty_list_no_auth (fun _ => []) exAuthNo "TP9" rfl

/-- C5: on the upgrade path, a control-plane host never has the proxy's
routeUpgrade invoked, and whenever the proxy would decline to claim the
upgrade the socket is ended with the terminal payload Not found — a raw-socket
write and close whose payload is not an HTTP status line. -/
theorem upgrade_control_plane_never_routed_and_decline_ends_socket
    (baseHostname : String) (host : Option String) (proxyClaims : Bool) :
    (isNonProxyRequest baseHostname host = true →
      (handleUpgrade baseHostname host proxyClaims).2 = false) ∧
    (proxyClaims = false →
      (handleUpgrade baseHostname host proxyClaims).1 =
        UpgradeOutcome.socketEnded "Not found" ∧
      strStartsWith "Not found" "HTTP/" = false) := by
  constructor
  · intro h
    simp [handleUpgrade, h]
  · intro h
    subst h
    refine ⟨?_, by decide⟩
    by_cases hc : isNonProxyRequest baseHostname host = true <;>
      simp [handleUpgrade, hc]

/-- Witness for C5 at concrete inputs: an upgrade to auth.example.com does
not invoke routeUpgrade even when the proxy would claim it, and a declined
upgrade to a tenant host ends the socket with Not found. -/
theorem upgrade_control_plane_never_routed_and_decline_ends_socket_witness :
    (handleUpgrade "example.com" (some "auth.example.com") true).2 = false ∧
    (handleUpgrade "example.com" (some "tenant.example.com") false).1 =
      UpgradeOutcome.socketEnded "Not found" :=
  ⟨(upgrade_control_plane_never_routed_and_decline_ends_socket "example.com"
      (some "auth.example.com") true).1 (by decide),
   ((upgrade_control_plane_never_routed_and_decline_ends_socket "example.com"
      (some "tenant.example.com") false).2 rfl).1⟩

/-- C2 fails on the code: the returnPath "//evil.example/phish" starts with a
slash, so it passes the validation, yet WHATWG resolution treats it as a
protocol-relative URL, and the success redirect of the login handler targets
the external host evil.example instead of the tenant subdomain
myenv.livecycle.example. -/
theorem login_accepts_protocol_relative_returnPath_external_redirect :
    strStartsWith "//evil.example/phish" "/" = true ∧
    (loginHandler exBase none exRegistry (some "alice") exAuthNo "myenv"
        (some "//evil.example/phish")).1 =
      LoginResponse.redirect "https://evil.example/phish" none ∧
    (resolve "//evil.example/phish"
        (editUrl exBase (some ("myenv" ++ "." ++ exBase.host)) none none)).host =
      "evil.example" ∧
    "evil.example" ≠ "myenv" ++ "." ++ exBase.host :=
  ⟨rfl, rfl, rfl, by decide⟩

/-- C4: an unauthenticated login for an active env with a secondary identity
provider configured redirects to the provider's login endpoint, whose
redirectTo parameter is the URL-encoded gateway login URL rebuilt with
hostname auth.<base> and query env plus the same returnPath, and the response
carries an Access-Control-Allow-Origin of the provider's base URL. -/
theorem login_unauthenticated_with_saas_redirects_to_idp
    (baseUrl : Url) (registry : String → Option ActiveTunnel) (auth : AuthResult)
    (saas envId : String) (returnPathQ : Option String) (t : ActiveTunnel)
    (hrp : strStartsWith (returnPathQ.getD "/") "/" = true)
    (hreg : registry envId = some t)
    (hauth : auth.isAuthenticated = false) :
    (loginHandler baseUrl (some saas) registry none auth envId returnPathQ).1 =
      LoginResponse.redirect
        (saas ++ "/api/auth/login?redirectTo=" ++
          encodeURIComponent
            (buildLoginUrl baseUrl envId (some (returnPathQ.getD "/"))))
        (some saas) ∧
    buildLoginUrl baseUrl envId (some (returnPathQ.getD "/")) =
      urlToString
        { scheme := baseUrl.scheme, host := "auth." ++ baseUrl.host,
          path := "/login",
          queryString :=
            "?" ++ renderQueryParams
              [("env", envId), ("returnPath", returnPathQ.getD "/")] } := by
  have hne : returnPathQ.getD "/" ≠ "" := by
    intro h
    rw [h] at hrp
    exact absurd hrp (by decide)
  constructor
  · simp [loginHandler, hrp, hreg, hauth]
  · simp [buildLoginUrl, editUrl, urlToString, hne]

/-- Witness for C4 at a concrete input: env "myenv", returnPath "/app",
provider https://idp.example. -/
theorem login_unauthenticated_with_saas_redirects_to_idp_witness :
    (loginHandler exBase (some "https://idp.example") exRegistry none exAuthNo
        "myenv" (some "/app")).1 =
      LoginResponse.redirect
        ("https://idp.example" ++ "/api/auth/login?redirectTo=" ++
          encodeURIComponent
            (buildLoginUrl exBase "myenv" (some ((some "/app").getD "/"))))
        (some "https://idp.example") ∧
    buildLoginUrl exBase "myenv" (some ((some "/app").getD "/")) =
      urlToString
        { scheme := exBase.scheme, host := "auth." ++ exBase.host,
          path := "/login",
          queryString :=
            "?" ++ renderQueryParams
              [("env", "myenv"), ("returnPath", (some "/app").getD "/")] } :=
  login_unauthenticated_with_saas_redirects_to_idp exBase exRegistry exAuthNo
    "https://idp.example" "myenv" (some "/app") exTunnel rfl rfl rfl

/-- C1 (amended): on an authenticated login the claims are staged and the
session save is started before the success redirect, in that order, but the
save is invoked without await (the trace records startSave false), so its
asynchronous resolution is not sequenced before the redirect. -/
theorem login_save_started_unawaited_before_redirect
    (baseUrl : Url) (saasBaseUrl : Option String)
    (registry : String → Option ActiveTunnel) (auth : AuthResult)
    (envId : String) (returnPathQ : Option String) (t : ActiveTunnel)
    (hrp : strStartsWith (returnPathQ.getD "/") "/" = true)
    (hreg : registry envId = some t)
    (hauth : auth.isAuthenticated = true) :
    (loginHandler baseUrl saasBaseUrl registry none auth envId returnPathQ).2 =
      [Ev.lookupTunnel envId, Ev.openSession t.publicKeyThumbprint,
       Ev.buildAuth t.publicKeyThumbprint, Ev.invokeAuth,
       Ev.sessionSet auth.claims, Ev.startSave false,
       Ev.respond (LoginResponse.redirect
         (urlToString (resolve (returnPathQ.getD "/")
           (editUrl baseUrl (some (envId ++ "." ++ baseUrl.host)) none none))) none)] := by
  simp [loginHandler, hrp, hreg, hauth]

/-- Witness for the amended C1 at a concrete input: authenticated login for
env "myenv" with returnPath "/app". -/
theorem login_save_started_unawaited_before_redirect_witness :
    (loginHandler exBase none exRegistry none exAuthOk "myenv" (some "/app")).2 =
      [Ev.lookupTunnel "myenv", Ev.openSession exTunnel.publicKeyThumbprint,
       Ev.buildAuth exTunnel.publicKeyThumbprint, Ev.invokeAuth,
       Ev.sessionSet exAuthOk.claims, Ev.startSave false,
       Ev.respond (LoginResponse.redirect
         (urlToString (resolve ((some "/app").getD "/")
           (editUrl exBase (some ("myenv" ++ "." ++ exBase.host)) none none))) none)] :=
  login_save_started_unawaited_before_redirect exBase none exRegistry exAuthOk
    "myenv" (some "/app") exTunnel rfl rfl rfl

/-- C1 as stated fails on the code: for the concrete authenticated login of
env "myenv" the scheduling model admits a completion time for the un-awaited
session save that lies after the response, so the save is not guaranteed to
resolve before the success redirect is issued. -/
theorem login_redirect_may_precede_save_resolution :
    ¬ saveResolvesBeforeRespond
        (loginHandler exBase none exRegistry none exAuthOk "myenv" (some "/app")).2 := by
  intro h
  have h2 := h 5 7 (by decide) ⟨by decide, by decide⟩
  exact absurd h2 (by decide)

end TunnelServer
